import Mathlib

/-!
Verification of the type-path substitution table
(`codegen/src/types/substitutes.rs`).

The Rust source is shallowly embedded: `syn` path syntax becomes a family of
mutually inductive types, the two `HashMap`s of `TypeSubstitutes` become
functions `String → Option _`, and the `abort!`-style failures of `extend`
become an `Except` error result (an `abort!` tears down the whole macro
expansion, so on error no table is produced at all).
-/

namespace Substitutes

/-! ## Syntax model: `syn::TypePath` and friends

A `syn::TypePath` is a path (optional leading `::`, then identifier segments),
where each segment optionally carries generic arguments.  The `qself` field of
`syn::TypePath` is never constructed or inspected by the source under
verification, so it is omitted; `TypePath` and its inner `Path` are flattened
into one type.  Generic arguments keep exactly the distinctions the source
observes: `GenericArgument::Type(Type::Path _)` (the only kind `type_args`
yields), `GenericArgument::Const` of a path-shaped expression, and lifetime
arguments (both filtered out by `type_args`). -/

mutual

inductive TypePathS where
  | mk (leadingColon : Bool) (segments : List PathSegment)

inductive PathSegment where
  | mk (ident : String) (arguments : PathArguments)

inductive PathArguments where
  | none
  | angleBracketed (args : List GenericArg)
  | parenthesized

inductive GenericArg where
  | typePathArg (p : TypePathS)
  | constPathArg (p : TypePathS)
  | lifetimeArg (n : String)

end

def TypePathS.leadingColon : TypePathS → Bool
  | .mk lc _ => lc

def TypePathS.segments : TypePathS → List PathSegment
  | .mk _ segs => segs

def PathSegment.ident : PathSegment → String
  | .mk i _ => i

def PathSegment.arguments : PathSegment → PathArguments
  | .mk _ a => a

/-! ## Structural equality

Models the derived `PartialEq` of `syn` types (field-by-field structural
equality, identifiers compared as strings), which `extend` invokes via
`src == &arg`. -/

mutual

def pathBeq (a b : TypePathS) : Bool :=
  match a, b with
  | .mk lc s, .mk lc2 s2 => (lc == lc2) && segsBeq s s2
termination_by structural a

def segsBeq (a b : List PathSegment) : Bool :=
  match a, b with
  | [], [] => true
  | x :: r, y :: r2 => segBeq x y && segsBeq r r2
  | _, _ => false
termination_by structural a

def segBeq (a b : PathSegment) : Bool :=
  match a, b with
  | .mk i x, .mk i2 x2 => (i == i2) && argmtsBeq x x2
termination_by structural a

def argmtsBeq (a b : PathArguments) : Bool :=
  match a, b with
  | .none, .none => true
  | .angleBracketed xs, .angleBracketed ys => argListBeq xs ys
  | .parenthesized, .parenthesized => true
  | _, _ => false
termination_by structural a

def argListBeq (a b : List GenericArg) : Bool :=
  match a, b with
  | [], [] => true
  | x :: r, y :: r2 => argBeq x y && argListBeq r r2
  | _, _ => false
termination_by structural a

def argBeq (a b : GenericArg) : Bool :=
  match a, b with
  | .typePathArg p, .typePathArg q => pathBeq p q
  | .constPathArg p, .constPathArg q => pathBeq p q
  | .lifetimeArg n, .lifetimeArg m => n == m
  | _, _ => false
termination_by structural a

end

/-! ## Key derivation

The source derives a map key as `ty.to_token_stream().to_string().replace(' ', "")`
(lines 105, 110, 129): the token-stream text of the path with every space
removed.  Token-stream rendering differs from the grammar text only in the
placement of space characters, all of which the `.replace(' ', "")` erases, so
the composed key function is modelled directly as the space-free rendering of
the path.  The tick character (code 39) leads lifetime arguments. -/

def lifetimeTick : String := String.singleton (Char.ofNat 39)

mutual

def pathKey : TypePathS → String
  | .mk lc segs => (if lc then "::" else "") ++ segmentsKey segs

def segmentsKey : List PathSegment → String
  | [] => ""
  | [s] => segmentKey s
  | s :: rest => segmentKey s ++ "::" ++ segmentsKey rest

def segmentKey : PathSegment → String
  | .mk i args => i ++ argumentsKey args

def argumentsKey : PathArguments → String
  | .none => ""
  | .angleBracketed args => "<" ++ argListKey args ++ ">"
  | .parenthesized => "(..)"

def argListKey : List GenericArg → String
  | [] => ""
  | [a] => argKey a
  | a :: rest => argKey a ++ "," ++ argListKey rest

def argKey : GenericArg → String
  | .typePathArg p => pathKey p
  | .constPathArg p => pathKey p
  | .lifetimeArg n => lifetimeTick ++ n

end

/-! ## The codegen-side `TypePath`

The sibling module's `TypePath` / `TypePathType` (imported by the source as
`super::{TypePath, TypePathType}`) is modelled with the one constructor the
source builds, `TypePath::Type(TypePathType::Path { path, params })`, plus an
opaque stand-in for every other value of that type (caller-supplied resolved
parameters are arbitrary values of it). -/

inductive CgTypePath where
  | typ (path : TypePathS) (params : List CgTypePath)
  | otherCg (n : Nat)

/-! ## Source helper functions -/

/-- Models `syn::PathArguments::is_none`. -/
def PathArguments.is_none : PathArguments → Bool
  | PathArguments.none => true
  | _ => false

/-- Models `syn::PathArguments::is_empty`: `None` is empty, angle-bracketed
arguments are empty when the list is, parenthesized arguments are never
empty. -/
def PathArguments.is_empty : PathArguments → Bool
  | PathArguments.none => true
  | PathArguments.angleBracketed args => args.isEmpty
  | PathArguments.parenthesized => false

/-- Translation of `fn type_args` (lines 148-164): the type-only generic
arguments of a `syn::PathArguments` — angle-bracketed arguments filtered to
`GenericArgument::Type(Type::Path(path))`, everything else (lifetimes, consts,
non-path types, parenthesized arguments) dropped. -/
def type_args (path_args : PathArguments) : List TypePathS :=
  match path_args with
  | PathArguments.angleBracketed args =>
    args.filterMap (fun a =>
      match a with
      | GenericArg.typePathArg p => some p
      | _ => Option.none)
  | _ => []

/-- Translation of `fn is_absolute` (lines 166-173): a path is absolute when it
has a leading `::` or its first segment is the ident `crate`. -/
def is_absolute (value : TypePathS) : Bool :=
  value.leadingColon
    || ((value.segments.head?.map (fun seg => seg.ident == "crate")).getD false)

/-! ## `AbsoluteTypePath` and its `TryFrom` validator -/

structure AbsoluteTypePath where
  p : TypePathS

/-- The fixed user-visible message of the `NotAbsolute` failure (line 191). -/
def notAbsoluteMsg : String :=
  "The substitute path must be a global absolute path; try prefixing with `::` or `crate`"

/-- Translation of `impl TryFrom<syn::TypePath> for AbsoluteTypePath`
(lines 177-195). -/
def AbsoluteTypePath.tryFrom (value : TypePathS) :
    Except (TypePathS × String) AbsoluteTypePath :=
  let is_global_abs_path :=
    value.leadingColon
      || ((value.segments.head?.map (fun seg => seg.ident == "crate")).getD false)
  if is_global_abs_path then
    Except.ok (AbsoluteTypePath.mk value)
  else
    Except.error (value, notAbsoluteMsg)

/-! ## The substitution table -/

/-- Model of `HashMap String v`: total function to `Option`. -/
def StringMap (α : Type) : Type := String → Option α

def StringMap.empty {α : Type} : StringMap α := fun _ => Option.none

def StringMap.insert {α : Type} (m : StringMap α) (k : String) (v : α) : StringMap α :=
  fun q => if q = k then some v else m q

/-- Translation of `struct TypeSubstitutes` (lines 13-17): the rewrite map
`inner` and the parallel parameter-template map `params`. -/
structure TypeSubstitutes where
  inner : StringMap TypePathS
  params : StringMap (List CgTypePath)

/-- Models the `parse_quote!(#crate_path::seg::…::seg)` targets of `new`:
the interpolated crate anchor followed by the listed plain segments. -/
def pathAppend (base : TypePathS) (extra : List String) : TypePathS :=
  TypePathS.mk base.leadingColon
    (base.segments ++ extra.map (fun i => PathSegment.mk i PathArguments.none))

/-- The path `::std::vec::Vec`, the default target for `BTreeSet`. -/
def vecStd : TypePathS :=
  TypePathS.mk true
    [PathSegment.mk "std" PathArguments.none,
     PathSegment.mk "vec" PathArguments.none,
     PathSegment.mk "Vec" PathArguments.none]

/-- The hardcoded default substitutions of `TypeSubstitutes::new`
(lines 22-61), in source order. -/
def defaultSubstitutes (crate_path : TypePathS) : List (String × TypePathS) :=
  [ ("bitvec::order::Lsb0", pathAppend crate_path ["utils", "bits", "Lsb0"]),
    ("bitvec::order::Msb0", pathAppend crate_path ["utils", "bits", "Msb0"]),
    ("sp_core::crypto::AccountId32",
      pathAppend crate_path ["ext", "sp_core", "crypto", "AccountId32"]),
    ("primitive_types::H160", pathAppend crate_path ["ext", "sp_core", "H160"]),
    ("primitive_types::H256", pathAppend crate_path ["ext", "sp_core", "H256"]),
    ("primitive_types::H512", pathAppend crate_path ["ext", "sp_core", "H512"]),
    ("sp_runtime::multiaddress::MultiAddress",
      pathAppend crate_path ["ext", "sp_runtime", "MultiAddress"]),
    ("frame_support::traits::misc::WrapperKeepOpaque",
      pathAppend crate_path ["utils", "WrapperKeepOpaque"]),
    ("BTreeMap", pathAppend crate_path ["utils", "KeyedVec"]),
    ("BTreeSet", vecStd) ]

/-- Translation of `TypeSubstitutes::new` (lines 20-70): collect the default
entries into `inner` (later duplicates would overwrite earlier ones, as for
`HashMap::from_iter`); `params` starts empty. -/
def TypeSubstitutes.new (crate_path : TypePathS) : TypeSubstitutes :=
  TypeSubstitutes.mk
    ((defaultSubstitutes crate_path).foldl
      (fun m kv => StringMap.insert m kv.1 kv.2) StringMap.empty)
    StringMap.empty

/-- The structured failures `extend` signals via `abort!`, each carrying the
syntactic anchor of the diagnostic: the offending namespace segment
(line 83), the empty source path (lines 85-86), or the unresolved target
generic argument (line 101). -/
inductive ExtendError where
  | genericInNamespace (seg : PathSegment)
  | emptyPath (ty : TypePathS)
  | unresolvedGeneric (arg : TypePathS)

/-- The namespace scan of `extend` (lines 79-84): walk the segments in reverse,
skip the last (i.e. first in reverse order), and find a segment whose
arguments are neither `None` nor empty. -/
def namespaceOffender (p : TypePathS) : Option PathSegment :=
  (p.segments.reverse.drop 1).find?
    (fun seg => !(PathArguments.is_none seg.arguments)
      && !(PathArguments.is_empty seg.arguments))

/-- The template-building loop of `extend` (lines 92-103): each type-only
target argument becomes a slot — the matching source argument (found by
structural equality `src == &arg`, stored as `src.clone()` with an empty
`params` list) or, failing that, the argument itself when absolute — and the
first argument that is neither aborts with `UnresolvedGeneric`. -/
def resolveArgs (source_args : List TypePathS) :
    List TypePathS → Except ExtendError (List CgTypePath)
  | [] => Except.ok []
  | arg :: rest =>
    match source_args.find? (fun src => pathBeq src arg) with
    | some src =>
      match resolveArgs source_args rest with
      | Except.ok tail => Except.ok (CgTypePath.typ src [] :: tail)
      | Except.error err => Except.error err
    | Option.none =>
      if is_absolute arg then
        match resolveArgs source_args rest with
        | Except.ok tail => Except.ok (CgTypePath.typ arg [] :: tail)
        | Except.error err => Except.error err
      else
        Except.error (ExtendError.unresolvedGeneric arg)

/-- Ingestion of one entry of `TypeSubstitutes::extend` (lines 72-114): the
namespace check, the final-segment extractions, the optional
parameter-template construction keyed by the stripped source text, and the
insertion of the stripped source text ↦ target into `inner`. -/
def extendOne (ts : TypeSubstitutes) (e : TypePathS × AbsoluteTypePath) :
    Except ExtendError TypeSubstitutes :=
  match namespaceOffender e.1 with
  | some seg => Except.error (ExtendError.genericInNamespace seg)
  | Option.none =>
    match e.1.segments.getLast?, e.2.p.segments.getLast? with
    | Option.none, _ => Except.error (ExtendError.emptyPath e.1)
    | some _, Option.none => Except.error (ExtendError.emptyPath e.1)
    | some srcSeg, some tgtSeg =>
      let source_args := type_args srcSeg.arguments
      if source_args.isEmpty then
        Except.ok (TypeSubstitutes.mk
          (StringMap.insert ts.inner (pathKey e.1) e.2.p) ts.params)
      else
        match resolveArgs source_args (type_args tgtSeg.arguments) with
        | Except.error err => Except.error err
        | Except.ok new_params =>
          Except.ok (TypeSubstitutes.mk
            (StringMap.insert ts.inner (pathKey e.1) e.2.p)
            (StringMap.insert ts.params (pathKey e.1) new_params))

/-- Translation of `TypeSubstitutes::extend` (lines 72-114): ingest the
entries left to right; an `abort!` kills the whole expansion, so an error
yields no table at all. -/
def TypeSubstitutes.extend (ts : TypeSubstitutes) :
    List (TypePathS × AbsoluteTypePath) → Except ExtendError TypeSubstitutes
  | [] => Except.ok ts
  | e :: rest =>
    match extendOne ts e with
    | Except.ok ts2 => ts2.extend rest
    | Except.error err => Except.error err

/-- Translation of `TypeSubstitutes::for_path_with_params` (lines 118-141):
derive the key exactly as `extend` does, return the stored target together
with the stored template if any, else the caller's parameters. -/
def TypeSubstitutes.for_path_with_params (ts : TypeSubstitutes)
    (path : TypePathS) (params : List CgTypePath) :
    Option (TypePathS × List CgTypePath) :=
  let path_key := pathKey path
  match ts.inner path_key with
  | some sub => some (sub, (ts.params path_key).getD params)
  | Option.none => Option.none

/-- Modelled from the spec: the meaning of a parameter-template slot (§3
"ParameterSlot", §4.2 "Template resolution").  The downstream emitter — code
outside the file under verification — interprets a *pass-through* slot naming
the source's i-th generic parameter as the caller's i-th resolved argument,
and a *concrete* slot as its fixed path, independent of the caller. -/
def resolveSlot (source_args : List TypePathS) (caller : List CgTypePath)
    (slot : CgTypePath) : CgTypePath :=
  match slot with
  | CgTypePath.typ p [] =>
    match source_args.findIdx? (fun s => pathBeq s p) with
    | some i => caller.getD i slot
    | Option.none => slot
  | s => s

/-! ## Concrete paths for the spec's literal scenarios -/

/-- A bare single-segment path such as `Foo`. -/
def idPath (s : String) : TypePathS :=
  TypePathS.mk false [PathSegment.mk s PathArguments.none]

/-- A segment `s<args>` whose generic arguments are all type paths. -/
def genSeg (s : String) (args : List TypePathS) : PathSegment :=
  PathSegment.mk s (PathArguments.angleBracketed (args.map GenericArg.typePathArg))

/-- The source pattern `Foo<A, B>`. -/
def srcFooAB : TypePathS := TypePathS.mk false [genSeg "Foo" [idPath "A", idPath "B"]]

/-- The source pattern `Foo<A>`. -/
def srcFooA : TypePathS := TypePathS.mk false [genSeg "Foo" [idPath "A"]]

/-- The target `::x::Bar<B, A>`. -/
def tgtBarBA : TypePathS :=
  TypePathS.mk true [PathSegment.mk "x" PathArguments.none,
    genSeg "Bar" [idPath "B", idPath "A"]]

/-- The concrete argument `::core::u8`. -/
def coreU8 : TypePathS :=
  TypePathS.mk true [PathSegment.mk "core" PathArguments.none,
    PathSegment.mk "u8" PathArguments.none]

/-- The target `::x::Bar<::core::u8>`. -/
def tgtBarU8 : TypePathS :=
  TypePathS.mk true [PathSegment.mk "x" PathArguments.none, genSeg "Bar" [coreU8]]

/-- The target `::x::Bar<A>`. -/
def tgtBarA : TypePathS :=
  TypePathS.mk true [PathSegment.mk "x" PathArguments.none, genSeg "Bar" [idPath "A"]]

/-- The source pattern `a::b<T>::c`, whose namespace segment `b<T>` is
generic. -/
def srcNsGeneric : TypePathS :=
  TypePathS.mk false [PathSegment.mk "a" PathArguments.none,
    genSeg "b" [idPath "T"], PathSegment.mk "c" PathArguments.none]

/-- The target `::x::Y`. -/
def tgtXY : TypePathS :=
  TypePathS.mk true [PathSegment.mk "x" PathArguments.none,
    PathSegment.mk "Y" PathArguments.none]

/-- The path `BTreeSet`. -/
def pathBTreeSet : TypePathS := idPath "BTreeSet"

/-- A caller argument standing for `u32`. -/
def u32cg : CgTypePath := CgTypePath.typ (idPath "u32") []

/-- The anchored crate path `::my_root` of the spec's scenarios. -/
def myRoot : TypePathS := TypePathS.mk true [PathSegment.mk "my_root" PathArguments.none]

/-- A relative (un-anchored) crate path `my_root`. -/
def relRoot : TypePathS := idPath "my_root"

/-- The source pattern `Foo<A>` where `A` is a *const* generic argument —
`GenericArgument::Const(Expr::Path)` — so its token text is also `Foo<A>`
while `type_args` yields nothing. -/
def srcFooAConst : TypePathS :=
  TypePathS.mk false
    [PathSegment.mk "Foo"
      (PathArguments.angleBracketed [GenericArg.constPathArg (idPath "A")])]

/-- The target `::x::T1<A>`. -/
def tgtT1 : TypePathS :=
  TypePathS.mk true [PathSegment.mk "x" PathArguments.none, genSeg "T1" [idPath "A"]]

/-- The target `::y::T2`. -/
def tgtT2 : TypePathS :=
  TypePathS.mk true [PathSegment.mk "y" PathArguments.none,
    PathSegment.mk "T2" PathArguments.none]

/-- The nested-generic path `::y::Vec<A>`. -/
def nestedVecA : TypePathS :=
  TypePathS.mk true [PathSegment.mk "y" PathArguments.none, genSeg "Vec" [idPath "A"]]

/-- The nested-generic target `::x::Bar<::y::Vec<A>>`. -/
def tgtBarNested : TypePathS :=
  TypePathS.mk true [PathSegment.mk "x" PathArguments.none, genSeg "Bar" [nestedVecA]]

/-- The target `::x::Bar<Q>` whose generic `Q` is neither a source parameter of
`Foo<A>` nor absolute. -/
def tgtBarQ : TypePathS :=
  TypePathS.mk true [PathSegment.mk "x" PathArguments.none, genSeg "Bar" [idPath "Q"]]

/-- The relative path `some::relative::Path` of the spec's scenario 7. -/
def someRelativePath : TypePathS :=
  TypePathS.mk false
    [PathSegment.mk "some" PathArguments.none,
     PathSegment.mk "relative" PathArguments.none,
     PathSegment.mk "Path" PathArguments.none]

/-- The table obtained from the defaults by ingesting `(Foo<A>, ::x::T1<A>)`
and then `(Foo<A>, ::y::T2)` where the second `A` is a const argument: both
entries share the stripped key `Foo<A>`. -/
def c2CounterTable : TypeSubstitutes :=
  TypeSubstitutes.mk
    (StringMap.insert
      (StringMap.insert (TypeSubstitutes.new myRoot).inner "Foo<A>" tgtT1)
      "Foo<A>" tgtT2)
    (StringMap.insert (TypeSubstitutes.new myRoot).params "Foo<A>"
      [CgTypePath.typ (idPath "A") []])

/-- The table obtained from the defaults by re-binding the existing key
`BTreeSet` (a source pattern without generics) to `::x::Y`. -/
def c2WitnessTable : TypeSubstitutes :=
  TypeSubstitutes.mk
    (StringMap.insert (TypeSubstitutes.new myRoot).inner "BTreeSet" tgtXY)
    (TypeSubstitutes.new myRoot).params

/-- The table obtained from the defaults by ingesting
`(Foo<A>, ::x::Bar<::core::u8>)`. -/
def extendedFooA : TypeSubstitutes :=
  TypeSubstitutes.mk
    (StringMap.insert (TypeSubstitutes.new myRoot).inner "Foo<A>" tgtBarU8)
    (StringMap.insert (TypeSubstitutes.new myRoot).params "Foo<A>"
      [CgTypePath.typ coreU8 []])

/-! ## Supporting lemmas -/

mutual

theorem pathBeq_iff : ∀ a b : TypePathS, pathBeq a b = true ↔ a = b
  | .mk lc s, .mk lc2 s2 => by
    rw [pathBeq]
    simp [Bool.and_eq_true, beq_iff_eq, segsBeq_iff s s2]

theorem segsBeq_iff : ∀ a b : List PathSegment, segsBeq a b = true ↔ a = b
  | [], [] => by simp [segsBeq]
  | x :: r, y :: r2 => by
    rw [segsBeq]
    simp [Bool.and_eq_true, segBeq_iff x y, segsBeq_iff r r2]
  | [], _ :: _ => by simp [segsBeq]
  | _ :: _, [] => by simp [segsBeq]

theorem segBeq_iff : ∀ a b : PathSegment, segBeq a b = true ↔ a = b
  | .mk i x, .mk i2 x2 => by
    rw [segBeq]
    simp [Bool.and_eq_true, beq_iff_eq, argmtsBeq_iff x x2]

theorem argmtsBeq_iff : ∀ a b : PathArguments, argmtsBeq a b = true ↔ a = b
  | .none, .none => by simp [argmtsBeq]
  | .angleBracketed xs, .angleBracketed ys => by
    rw [argmtsBeq]
    simp [argListBeq_iff xs ys]
  | .parenthesized, .parenthesized => by simp [argmtsBeq]
  | .none, .angleBracketed _ => by simp [argmtsBeq]
  | .none, .parenthesized => by simp [argmtsBeq]
  | .angleBracketed _, .none => by simp [argmtsBeq]
  | .angleBracketed _, .parenthesized => by simp [argmtsBeq]
  | .parenthesized, .none => by simp [argmtsBeq]
  | .parenthesized, .angleBracketed _ => by simp [argmtsBeq]

theorem argListBeq_iff : ∀ a b : List GenericArg, argListBeq a b = true ↔ a = b
  | [], [] => by simp [argListBeq]
  | x :: r, y :: r2 => by
    rw [argListBeq]
    simp [Bool.and_eq_true, argBeq_iff x y, argListBeq_iff r r2]
  | [], _ :: _ => by simp [argListBeq]
  | _ :: _, [] => by simp [argListBeq]

theorem argBeq_iff : ∀ a b : GenericArg, argBeq a b = true ↔ a = b
  | .typePathArg p, .typePathArg q => by
    rw [argBeq]
    simp [pathBeq_iff p q]
  | .constPathArg p, .constPathArg q => by
    rw [argBeq]
    simp [pathBeq_iff p q]
  | .lifetimeArg n, .lifetimeArg m => by
    rw [argBeq]
    simp [beq_iff_eq]
  | .typePathArg _, .constPathArg _ => by simp [argBeq]
  | .typePathArg _, .lifetimeArg _ => by simp [argBeq]
  | .constPathArg _, .typePathArg _ => by simp [argBeq]
  | .constPathArg _, .lifetimeArg _ => by simp [argBeq]
  | .lifetimeArg _, .typePathArg _ => by simp [argBeq]
  | .lifetimeArg _, .constPathArg _ => by simp [argBeq]

end

theorem pathBeq_refl (a : TypePathS) : pathBeq a a = true :=
  (pathBeq_iff a a).mpr rfl

/-- When every type-only target argument is a source argument or absolute, the
template-building loop succeeds, and every slot is the bare target argument
with an empty parameter list (for pass-through slots the stored source
argument is structurally equal to the target argument). -/
theorem resolveArgs_ok_all (src : List TypePathS) :
    ∀ tgt : List TypePathS, (∀ a ∈ tgt, a ∈ src ∨ is_absolute a = true) →
      resolveArgs src tgt = Except.ok (tgt.map (fun a => CgTypePath.typ a []))
  | [], _ => rfl
  | a :: rest, h => by
    have hrest := resolveArgs_ok_all src rest (fun x hx => h x (List.mem_cons_of_mem a hx))
    rcases hfind : src.find? (fun s => pathBeq s a) with _ | s
    · rcases h a (List.mem_cons_self a rest) with hmem | habs
      · exact absurd (pathBeq_refl a) (List.find?_eq_none.mp hfind a hmem)
      · unfold resolveArgs
        rw [hfind, habs]
        simp only [if_true, hrest, List.map_cons]
    · have hps := List.find?_some hfind
      have hs : s = a := (pathBeq_iff s a).mp (by simpa using hps)
      subst hs
      unfold resolveArgs
      rw [hfind, hrest]
      simp [List.map_cons]

/-- The template-building loop aborts with `UnresolvedGeneric` at the first
target argument that is neither structurally equal to a source argument nor
absolute. -/
theorem resolveArgs_error_first (src : List TypePathS) :
    ∀ tgt bad, tgt.find?
        (fun a => !(src.any (fun s => pathBeq s a) || is_absolute a)) = some bad →
      resolveArgs src tgt = Except.error (ExtendError.unresolvedGeneric bad)
  | [], bad, h => by simp [List.find?] at h
  | a :: rest, bad, h => by
    rw [List.find?] at h
    rcases hor : (src.any (fun s => pathBeq s a) || is_absolute a) with _ | _
    · rw [hor] at h
      simp only [Bool.not_false] at h
      have hba : a = bad := by simpa using h
      subst hba
      have hany : src.any (fun s => pathBeq s a) = false := by
        rcases Bool.or_eq_false_iff.mp hor with ⟨h1, _⟩
        exact h1
      have habs : is_absolute a = false := by
        rcases Bool.or_eq_false_iff.mp hor with ⟨_, h2⟩
        exact h2
      have hfind : src.find? (fun s => pathBeq s a) = Option.none := by
        rw [List.find?_eq_none]
        intro x hx
        simpa using List.any_eq_false.mp hany x hx
      unfold resolveArgs
      rw [hfind, habs]
      simp
    · rw [hor] at h
      simp only [Bool.not_true] at h
      have hres : List.find?
          (fun a => !((src.any fun s => pathBeq s a) || is_absolute a)) rest = some bad := by
        simpa using h
      have hrest := resolveArgs_error_first src rest bad hres
      unfold resolveArgs
      rcases hfind : src.find? (fun s => pathBeq s a) with _ | s
      · have habs : is_absolute a = true := by
          rcases Bool.or_eq_true_iff.mp hor with hany | habs2
          · exfalso
            rcases List.any_eq_true.mp hany with ⟨x, hx, hbx⟩
            exact absurd (by simpa using hbx) (by simpa using List.find?_eq_none.mp hfind x hx)
          · exact habs2
        rw [habs]
        simp [hrest]
      · rw [hrest]

/-- Extending with a single entry is exactly one ingestion step. -/
theorem extend_singleton (t : TypeSubstitutes) (e : TypePathS × AbsoluteTypePath) :
    t.extend [e] = extendOne t e := by
  unfold TypeSubstitutes.extend
  rcases h : extendOne t e with _ | t2
  · rfl
  · rfl

/-- A successful ingestion step always stores the target under the stripped
source text. -/
theorem extendOne_ok_inner (t : TypeSubstitutes) (ty : TypePathS)
    (w : AbsoluteTypePath) (t2 : TypeSubstitutes)
    (hok : extendOne t (ty, w) = Except.ok t2) :
    t2.inner = StringMap.insert t.inner (pathKey ty) w.p := by
  unfold extendOne at hok
  split at hok
  · cases hok
  · split at hok
    · cases hok
    · cases hok
    · simp only [] at hok
      split at hok
      · cases hok
        rfl
      · split at hok
        · cases hok
        · cases hok
          rfl

/-- Appending plain segments to a path preserves absoluteness: the leading
colon and the first segment survive the append. -/
theorem pathAppend_absolute (base : TypePathS) (extra : List String)
    (h : is_absolute base = true) : is_absolute (pathAppend base extra) = true := by
  rcases base with ⟨lc, segs⟩
  rcases lc
  · rcases segs with _ | ⟨s, rest⟩
    · simp [is_absolute, TypePathS.leadingColon, TypePathS.segments] at h
    · simp only [is_absolute, TypePathS.leadingColon, TypePathS.segments, pathAppend,
        List.cons_append, List.head?_cons, Option.map_some, Option.getD_some,
        Bool.false_or] at h ⊢
      exact h
  · simp [is_absolute, pathAppend, TypePathS.leadingColon]

/-- A lookup that hits a fold of insertions comes either from one of the
inserted pairs or from the initial map. -/
theorem foldl_insert_lookup (l : List (String × TypePathS)) (m : StringMap TypePathS)
    (k : String) (tgt : TypePathS)
    (h : (l.foldl (fun acc kv => StringMap.insert acc kv.1 kv.2) m) k = some tgt) :
    (∃ kv ∈ l, kv.1 = k ∧ kv.2 = tgt) ∨ m k = some tgt := by
  induction l generalizing m with
  | nil => exact Or.inr h
  | cons a rest ih =>
    rcases ih (StringMap.insert m a.1 a.2) h with ⟨kv, hkv, he⟩ | hm
    · exact Or.inl ⟨kv, List.mem_cons_of_mem a hkv, he⟩
    · by_cases hk : k = a.1
      · rw [StringMap.insert, if_pos hk] at hm
        injection hm with hm
        exact Or.inl ⟨a, List.mem_cons_self a rest, hk.symm, hm⟩
      · rw [StringMap.insert, if_neg hk] at hm
        exact Or.inr hm

/-- When the source pattern carries no type-only generic arguments, a
successful ingestion step leaves the template map untouched. -/
theorem extendOne_ok_params_empty (t : TypeSubstitutes) (ty : TypePathS)
    (w : AbsoluteTypePath) (t2 : TypeSubstitutes) (srcSeg : PathSegment)
    (hsrc : ty.segments.getLast? = some srcSeg)
    (hemp : (type_args srcSeg.arguments).isEmpty = true)
    (hok : extendOne t (ty, w) = Except.ok t2) :
    t2.params = t.params := by
  unfold extendOne at hok
  split at hok
  · cases hok
  · split at hok
    · cases hok
    · cases hok
    · rename_i srcSeg2 tgtSeg2 heq1 heq2
      simp only [] at heq1
      rw [hsrc] at heq1
      injection heq1 with heq1
      subst heq1
      simp only [] at hok
      split at hok
      · cases hok
        rfl
      · rename_i hcond
        exact absurd hemp hcond

/-- When the source pattern carries type-only generic arguments, a successful
ingestion step stores exactly the template the resolution loop built, keyed
by the stripped source text. -/
theorem extendOne_ok_params_nonempty (t : TypeSubstitutes) (ty : TypePathS)
    (w : AbsoluteTypePath) (t2 : TypeSubstitutes) (srcSeg tgtSeg : PathSegment)
    (hsrc : ty.segments.getLast? = some srcSeg)
    (htgt : w.p.segments.getLast? = some tgtSeg)
    (hne : (type_args srcSeg.arguments).isEmpty = false)
    (hok : extendOne t (ty, w) = Except.ok t2) :
    ∃ tpl, resolveArgs (type_args srcSeg.arguments) (type_args tgtSeg.arguments) =
        Except.ok tpl ∧
      t2.params = StringMap.insert t.params (pathKey ty) tpl := by
  unfold extendOne at hok
  split at hok
  · cases hok
  · split at hok
    · cases hok
    · cases hok
    · rename_i srcSeg2 tgtSeg2 heq1 heq2
      simp only [] at heq1 heq2
      rw [hsrc] at heq1
      rw [htgt] at heq2
      injection heq1 with heq1
      injection heq2 with heq2
      subst heq1
      subst heq2
      simp only [] at hok
      split at hok
      · rename_i hcond
        rw [hne] at hcond
        cases hcond
      · split at hok
        · cases hok
        · rename_i tpl heq3
          cases hok
          exact ⟨tpl, heq3, rfl⟩

/-! ## Claim theorems -/

/-- C1: For every table extended with `(Foo<A,B>, ::x::Bar<B,A>)`, looking up
the source key with caller arguments `[X, Y]` returns effective arguments
whose first slot resolves (as a pass-through naming the source's second
generic) to the caller's `Y` and whose second resolves to `X`; a Concrete
slot of a template — here `::core::u8` — yields its fixed concrete path
regardless of caller arguments; and when the target declares fewer generics
than the source (`Foo<A,B> ↦ ::x::Bar<A>`) the effective argument list is
correspondingly shorter. -/
theorem c1_template_resolution (t : TypeSubstitutes) (X Y Z : CgTypePath) :
    (∃ t2, t.extend [(srcFooAB, AbsoluteTypePath.mk tgtBarBA)] = Except.ok t2 ∧
      t2.for_path_with_params srcFooAB [X, Y] =
        some (tgtBarBA,
          [CgTypePath.typ (idPath "B") [], CgTypePath.typ (idPath "A") []]) ∧
      [CgTypePath.typ (idPath "B") [], CgTypePath.typ (idPath "A") []].map
        (resolveSlot [idPath "A", idPath "B"] [X, Y]) = [Y, X]) ∧
    (∃ t2, t.extend [(srcFooA, AbsoluteTypePath.mk tgtBarU8)] = Except.ok t2 ∧
      t2.for_path_with_params srcFooA [Z] =
        some (tgtBarU8, [CgTypePath.typ coreU8 []]) ∧
      resolveSlot [idPath "A"] [Z] (CgTypePath.typ coreU8 []) =
        CgTypePath.typ coreU8 []) ∧
    (∃ t2, t.extend [(srcFooAB, AbsoluteTypePath.mk tgtBarA)] = Except.ok t2 ∧
      t2.for_path_with_params srcFooAB [X, Y] =
        some (tgtBarA, [CgTypePath.typ (idPath "A") []]) ∧
      [CgTypePath.typ (idPath "A") []].length <
        (type_args (genSeg "Foo" [idPath "A", idPath "B"]).arguments).length) :=
  ⟨⟨_, rfl, rfl, rfl⟩, ⟨_, rfl, rfl, rfl⟩, ⟨_, rfl, rfl, by decide⟩⟩

/-- C3: a stored key with a target but no parameter template passes the
caller's generic argument list through unchanged. -/
theorem c3_no_template_passthrough (t : TypeSubstitutes) (path : TypePathS)
    (params : List CgTypePath) (tgt : TypePathS)
    (hstored : t.inner (pathKey path) = some tgt)
    (hnotpl : t.params (pathKey path) = Option.none) :
    t.for_path_with_params path params = some (tgt, params) := by
  simp only [TypeSubstitutes.for_path_with_params]
  rw [hstored, hnotpl]
  rfl

/-- C3 witness: scenario 1 of the spec — after `new(::my_root)`, looking up
`BTreeSet` with `[u32]` yields `::std::vec::Vec` and the unchanged caller
arguments. -/
theorem c3_witness :
    (TypeSubstitutes.new myRoot).inner (pathKey pathBTreeSet) = some vecStd ∧
    (TypeSubstitutes.new myRoot).params (pathKey pathBTreeSet) = Option.none ∧
    (TypeSubstitutes.new myRoot).for_path_with_params pathBTreeSet [u32cg] =
      some (vecStd, [u32cg]) :=
  ⟨rfl, rfl, c3_no_template_passthrough (TypeSubstitutes.new myRoot) pathBTreeSet
    [u32cg] vecStd rfl rfl⟩

/-- C7: extending with a source pattern whose non-final segment carries
generic arguments fails with `GenericInNamespace` anchored at the offending
segment (the one the reverse walk finds), and no table results at all, so
nothing about the entry is persisted. -/
theorem c7_namespace_guard (t : TypeSubstitutes) (ty : TypePathS)
    (w : AbsoluteTypePath) (seg : PathSegment)
    (hoff : namespaceOffender ty = some seg) :
    t.extend [(ty, w)] = Except.error (ExtendError.genericInNamespace seg) := by
  rw [extend_singleton]
  simp only [extendOne]
  rw [hoff]

/-- C7 witness: scenario 6 of the spec — `extend([(a::b<T>::c, ::x::Y)])`
fails with `GenericInNamespace` anchored on `b<T>`. -/
theorem c7_witness :
    namespaceOffender srcNsGeneric = some (genSeg "b" [idPath "T"]) ∧
    (TypeSubstitutes.new myRoot).extend [(srcNsGeneric, AbsoluteTypePath.mk tgtXY)] =
      Except.error (ExtendError.genericInNamespace (genSeg "b" [idPath "T"])) :=
  ⟨rfl, c7_namespace_guard (TypeSubstitutes.new myRoot) srcNsGeneric
    (AbsoluteTypePath.mk tgtXY) (genSeg "b" [idPath "T"]) rfl⟩

/-- C9: lookup of a path whose derived key is not stored returns `None`; the
lookup is a total pure function of the table (it returns only an `Option`
and cannot signal an error or change the table). -/
theorem c9_lookup_absence (t : TypeSubstitutes) (path : TypePathS)
    (params : List CgTypePath)
    (habsent : t.inner (pathKey path) = Option.none) :
    t.for_path_with_params path params = Option.none := by
  simp only [TypeSubstitutes.for_path_with_params]
  rw [habsent]

/-- C9 witness: the key `Missing` is not among the defaults, and its lookup
returns `None`. -/
theorem c9_witness :
    (TypeSubstitutes.new myRoot).inner (pathKey (idPath "Missing")) = Option.none ∧
    (TypeSubstitutes.new myRoot).for_path_with_params (idPath "Missing") [u32cg] =
      Option.none :=
  ⟨rfl, c9_lookup_absence (TypeSubstitutes.new myRoot) (idPath "Missing") [u32cg] rfl⟩

/-- C2 counterexample: re-binding the existing key `Foo<A>` with a source
pattern whose `A` is a *const* generic argument (so the entry has no type-only
source generics while its stripped text is unchanged) overwrites the target
but leaves the previously stored parameter template in place — it does not
become absent as the claim states. -/
theorem c2_counterexample :
    (TypeSubstitutes.new myRoot).extend
        [(srcFooA, AbsoluteTypePath.mk tgtT1),
         (srcFooAConst, AbsoluteTypePath.mk tgtT2)] = Except.ok c2CounterTable ∧
      pathKey srcFooAConst = pathKey srcFooA ∧
      type_args (PathArguments.angleBracketed
        [GenericArg.constPathArg (idPath "A")]) = [] ∧
      c2CounterTable.inner (pathKey srcFooAConst) = some tgtT2 ∧
      c2CounterTable.params (pathKey srcFooAConst) =
        some [CgTypePath.typ (idPath "A") []] :=
  ⟨rfl, rfl, rfl, rfl, rfl⟩

/-- C2 (amended): after a successful ingestion of an entry whose source key
already exists, the stored target for that key is the new target; the stored
parameter template is the one built from the new entry when the new source
pattern has type-only generic arguments, and is left exactly as it was
(not cleared) when it has none. -/
theorem c2_overwrite (t : TypeSubstitutes) (ty : TypePathS) (w : AbsoluteTypePath)
    (t2 : TypeSubstitutes) (srcSeg tgtSeg : PathSegment)
    (_hprev : (t.inner (pathKey ty)).isSome = true)
    (hsrc : ty.segments.getLast? = some srcSeg)
    (htgt : w.p.segments.getLast? = some tgtSeg)
    (hok : extendOne t (ty, w) = Except.ok t2) :
    t2.inner (pathKey ty) = some w.p ∧
    ((type_args srcSeg.arguments).isEmpty = false →
      ∃ tpl, resolveArgs (type_args srcSeg.arguments) (type_args tgtSeg.arguments) =
          Except.ok tpl ∧ t2.params (pathKey ty) = some tpl) ∧
    ((type_args srcSeg.arguments).isEmpty = true →
      t2.params (pathKey ty) = t.params (pathKey ty)) := by
  refine ⟨?_, ?_, ?_⟩
  · rw [extendOne_ok_inner t ty w t2 hok]
    simp [StringMap.insert]
  · intro hne
    rcases extendOne_ok_params_nonempty t ty w t2 srcSeg tgtSeg hsrc htgt hne hok
      with ⟨tpl, hres, hparams⟩
    refine ⟨tpl, hres, ?_⟩
    rw [hparams]
    simp [StringMap.insert]
  · intro hemp
    rw [extendOne_ok_params_empty t ty w t2 srcSeg hsrc hemp hok]

/-- C2 witness: re-binding the existing defaults key `BTreeSet` (no source
generics) to `::x::Y` overwrites the target and leaves the template mapping
for that key as it was. -/
theorem c2_witness :
    c2WitnessTable.inner "BTreeSet" = some tgtXY ∧
    c2WitnessTable.params "BTreeSet" = (TypeSubstitutes.new myRoot).params "BTreeSet" :=
  ⟨(c2_overwrite (TypeSubstitutes.new myRoot) pathBTreeSet (AbsoluteTypePath.mk tgtXY)
      c2WitnessTable (PathSegment.mk "BTreeSet" PathArguments.none)
      (PathSegment.mk "Y" PathArguments.none) rfl rfl rfl rfl).1,
   (c2_overwrite (TypeSubstitutes.new myRoot) pathBTreeSet (AbsoluteTypePath.mk tgtXY)
      c2WitnessTable (PathSegment.mk "BTreeSet" PathArguments.none)
      (PathSegment.mk "Y" PathArguments.none) rfl rfl rfl rfl).2.2 rfl⟩

/-- C4 counterexample: `new` performs no validation of the anchor, so with the
relative anchor `my_root` the stored default target `my_root::utils::bits::Lsb0`
is not absolute — the claim's "each stored target is an AbsolutePath" fails
for that anchor. -/
theorem c4_counterexample :
    (TypeSubstitutes.new relRoot).inner "bitvec::order::Lsb0" =
      some (pathAppend relRoot ["utils", "bits", "Lsb0"]) ∧
    is_absolute (pathAppend relRoot ["utils", "bits", "Lsb0"]) = false :=
  ⟨rfl, rfl⟩

/-- C4 (amended): for every anchor path, the fresh table maps each of the ten
default source keys to exactly the defaults-table target (the first nine
anchored under the crate anchor, `BTreeSet` to `::std::vec::Vec`) and has a
parameter template for no key; and whenever the anchor itself is absolute,
every stored target is absolute. -/
theorem c4_defaults (anchor : TypePathS) :
    ((TypeSubstitutes.new anchor).inner "bitvec::order::Lsb0" =
        some (pathAppend anchor ["utils", "bits", "Lsb0"]) ∧
      (TypeSubstitutes.new anchor).inner "bitvec::order::Msb0" =
        some (pathAppend anchor ["utils", "bits", "Msb0"]) ∧
      (TypeSubstitutes.new anchor).inner "sp_core::crypto::AccountId32" =
        some (pathAppend anchor ["ext", "sp_core", "crypto", "AccountId32"]) ∧
      (TypeSubstitutes.new anchor).inner "primitive_types::H160" =
        some (pathAppend anchor ["ext", "sp_core", "H160"]) ∧
      (TypeSubstitutes.new anchor).inner "primitive_types::H256" =
        some (pathAppend anchor ["ext", "sp_core", "H256"]) ∧
      (TypeSubstitutes.new anchor).inner "primitive_types::H512" =
        some (pathAppend anchor ["ext", "sp_core", "H512"]) ∧
      (TypeSubstitutes.new anchor).inner "sp_runtime::multiaddress::MultiAddress" =
        some (pathAppend anchor ["ext", "sp_runtime", "MultiAddress"]) ∧
      (TypeSubstitutes.new anchor).inner "frame_support::traits::misc::WrapperKeepOpaque" =
        some (pathAppend anchor ["utils", "WrapperKeepOpaque"]) ∧
      (TypeSubstitutes.new anchor).inner "BTreeMap" =
        some (pathAppend anchor ["utils", "KeyedVec"]) ∧
      (TypeSubstitutes.new anchor).inner "BTreeSet" = some vecStd) ∧
    (∀ k, (TypeSubstitutes.new anchor).params k = Option.none) ∧
    (is_absolute anchor = true →
      ∀ k tgt, (TypeSubstitutes.new anchor).inner k = some tgt →
        is_absolute tgt = true) := by
  refine ⟨⟨rfl, rfl, rfl, rfl, rfl, rfl, rfl, rfl, rfl, rfl⟩, fun _ => rfl, ?_⟩
  intro habs k tgt h
  have h2 : ((defaultSubstitutes anchor).foldl
      (fun acc kv => StringMap.insert acc kv.1 kv.2) StringMap.empty) k = some tgt := h
  rcases foldl_insert_lookup (defaultSubstitutes anchor) StringMap.empty k tgt h2
    with ⟨kv, hkv, _, hv⟩ | hm
  · rw [← hv]
    simp only [defaultSubstitutes, List.mem_cons, List.not_mem_nil, or_false] at hkv
    rcases hkv with h1 | h1 | h1 | h1 | h1 | h1 | h1 | h1 | h1 | h1 <;> subst h1
    all_goals first
      | rfl
      | exact pathAppend_absolute anchor _ habs
  · cases hm

/-- C4 witness: with the absolute anchor `::my_root` the `Lsb0` default is
present and its stored target is absolute. -/
theorem c4_witness :
    (TypeSubstitutes.new myRoot).inner "bitvec::order::Lsb0" =
      some (pathAppend myRoot ["utils", "bits", "Lsb0"]) ∧
    (TypeSubstitutes.new myRoot).params "BTreeMap" = Option.none ∧
    is_absolute (pathAppend myRoot ["utils", "bits", "Lsb0"]) = true :=
  ⟨(c4_defaults myRoot).1.1, (c4_defaults myRoot).2.1 "BTreeMap",
   (c4_defaults myRoot).2.2 rfl "bitvec::order::Lsb0"
     (pathAppend myRoot ["utils", "bits", "Lsb0"]) (c4_defaults myRoot).1.1⟩

/-- C5: the key stored by a successful ingestion is derived by the same
function lookup applies — any path with the same whitespace-stripped text as
the ingested source pattern finds the new target — and, in general, two
paths with equal whitespace-stripped texts have identical lookup results in
every table. -/
theorem c5_key_agreement (t : TypeSubstitutes) (ty : TypePathS)
    (w : AbsoluteTypePath) (t2 : TypeSubstitutes) (q : TypePathS)
    (params : List CgTypePath)
    (hok : extendOne t (ty, w) = Except.ok t2)
    (hkey : pathKey q = pathKey ty) :
    (t2.for_path_with_params q params).map Prod.fst = some w.p ∧
    ∀ (u : TypeSubstitutes) (r s : TypePathS) (ps : List CgTypePath),
      pathKey r = pathKey s →
        u.for_path_with_params r ps = u.for_path_with_params s ps := by
  constructor
  · have hinner := extendOne_ok_inner t ty w t2 hok
    simp only [TypeSubstitutes.for_path_with_params]
    rw [hkey, hinner]
    simp [StringMap.insert]
  · intro u r s ps hrs
    simp only [TypeSubstitutes.for_path_with_params]
    rw [hrs]

/-- C5 witness: after ingesting `(Foo<A>, ::x::Bar<::core::u8>)` into the
default table, looking up `Foo<A>` finds the new target. -/
theorem c5_witness :
    (extendedFooA.for_path_with_params srcFooA [u32cg]).map Prod.fst =
      some tgtBarU8 :=
  (c5_key_agreement (TypeSubstitutes.new myRoot) srcFooA
    (AbsoluteTypePath.mk tgtBarU8) extendedFooA srcFooA [u32cg] rfl rfl).1

/-- C6: validation succeeds — wrapping the unchanged input — exactly when the
path has a leading separator or its first segment is the self-crate marker
`crate`; otherwise it fails with the original path and the fixed
`NotAbsolute` message.  The validator is a pure function of its input. -/
theorem c6_validator (v : TypePathS) :
    ((v.leadingColon = true ∨
        ∃ s, v.segments.head? = some s ∧ s.ident = "crate") →
      AbsoluteTypePath.tryFrom v = Except.ok (AbsoluteTypePath.mk v)) ∧
    (¬(v.leadingColon = true ∨
        ∃ s, v.segments.head? = some s ∧ s.ident = "crate") →
      AbsoluteTypePath.tryFrom v = Except.error (v, notAbsoluteMsg)) := by
  constructor
  · intro h
    have hcond : (v.leadingColon
        || ((v.segments.head?.map (fun seg => seg.ident == "crate")).getD false)) = true := by
      rcases h with h1 | ⟨s, hs, hi⟩
      · simp [h1]
      · simp [hs, hi]
    simp [AbsoluteTypePath.tryFrom, hcond]
  · intro h
    have hcond : (v.leadingColon
        || ((v.segments.head?.map (fun seg => seg.ident == "crate")).getD false)) = false := by
      rcases hb : (v.leadingColon
          || ((v.segments.head?.map (fun seg => seg.ident == "crate")).getD false)) with _ | _
      · exact hb
      · exfalso
        apply h
        rcases Bool.or_eq_true_iff.mp hb with h1 | h2
        · exact Or.inl h1
        · right
          rcases ho : v.segments.head? with _ | s
          · rw [ho] at h2
            simp at h2
          · rw [ho] at h2
            exact ⟨s, rfl, by simpa using h2⟩
    simp [AbsoluteTypePath.tryFrom, hcond]

/-- C6 witness: `::my_root` validates to itself, and scenario 7's relative
path `some::relative::Path` fails with the `NotAbsolute` message. -/
theorem c6_witness :
    AbsoluteTypePath.tryFrom myRoot = Except.ok (AbsoluteTypePath.mk myRoot) ∧
    AbsoluteTypePath.tryFrom someRelativePath =
      Except.error (someRelativePath, notAbsoluteMsg) :=
  ⟨(c6_validator myRoot).1 (Or.inl rfl),
   (c6_validator someRelativePath).2 (by
      rintro (h1 | ⟨s, hs, hi⟩)
      · cases h1
      · rw [show someRelativePath.segments.head? =
            some (PathSegment.mk "some" PathArguments.none) from rfl] at hs
        injection hs with hs
        rw [← hs] at hi
        exact absurd hi (by decide))⟩

/-- C8: when the source pattern has a non-empty (type-only) generic argument
list and the first type-only generic argument on the target's final segment
that is neither structurally equal to one of the source's generic arguments
nor absolute exists, ingestion fails with `UnresolvedGeneric` anchored at
that argument, and no table results at all. -/
theorem c8_unresolved_generic (t : TypeSubstitutes) (ty : TypePathS)
    (w : AbsoluteTypePath) (srcSeg tgtSeg : PathSegment) (bad : TypePathS)
    (hns : namespaceOffender ty = Option.none)
    (hsrc : ty.segments.getLast? = some srcSeg)
    (htgt : w.p.segments.getLast? = some tgtSeg)
    (hne : (type_args srcSeg.arguments).isEmpty = false)
    (hbad : (type_args tgtSeg.arguments).find?
        (fun a => !((type_args srcSeg.arguments).any (fun s => pathBeq s a)
          || is_absolute a)) = some bad) :
    t.extend [(ty, w)] = Except.error (ExtendError.unresolvedGeneric bad) := by
  rw [extend_singleton]
  have hres := resolveArgs_error_first (type_args srcSeg.arguments)
    (type_args tgtSeg.arguments) bad hbad
  simp [extendOne, hns, hsrc, htgt, hne, hres]

/-- C8 witness: `extend([(Foo<A>, ::x::Bar<Q>)])` fails with
`UnresolvedGeneric` anchored at `Q`, which is neither the source generic `A`
nor absolute. -/
theorem c8_witness :
    (TypeSubstitutes.new myRoot).extend [(srcFooA, AbsoluteTypePath.mk tgtBarQ)] =
      Except.error (ExtendError.unresolvedGeneric (idPath "Q")) :=
  c8_unresolved_generic (TypeSubstitutes.new myRoot) srcFooA
    (AbsoluteTypePath.mk tgtBarQ) (genSeg "Foo" [idPath "A"])
    (genSeg "Bar" [idPath "Q"]) (idPath "Q") rfl rfl rfl rfl rfl

/-- C10: when every type-only target argument is a source generic argument or
an absolute path, ingestion succeeds and the stored template consists of one
slot per target argument, each a bare path with an empty resolved-parameter
list holding that argument verbatim — including any nested generic arguments
it carries, which are accepted and never resolved further. -/
theorem c10_template_slots (t : TypeSubstitutes) (ty : TypePathS)
    (w : AbsoluteTypePath) (srcSeg tgtSeg : PathSegment)
    (hns : namespaceOffender ty = Option.none)
    (hsrc : ty.segments.getLast? = some srcSeg)
    (htgt : w.p.segments.getLast? = some tgtSeg)
    (hne : (type_args srcSeg.arguments).isEmpty = false)
    (hresv : ∀ a ∈ type_args tgtSeg.arguments,
      a ∈ type_args srcSeg.arguments ∨ is_absolute a = true) :
    ∃ t2, t.extend [(ty, w)] = Except.ok t2 ∧
      t2.params (pathKey ty) =
        some ((type_args tgtSeg.arguments).map (fun a => CgTypePath.typ a [])) := by
  rw [extend_singleton]
  have hres := resolveArgs_ok_all (type_args srcSeg.arguments)
    (type_args tgtSeg.arguments) hresv
  refine ⟨TypeSubstitutes.mk (StringMap.insert t.inner (pathKey ty) w.p)
    (StringMap.insert t.params (pathKey ty)
      ((type_args tgtSeg.arguments).map (fun a => CgTypePath.typ a []))), ?_, ?_⟩
  · simp [extendOne, hns, hsrc, htgt, hne, hres]
  · simp [StringMap.insert]

/-- C10 witness: `extend([(Foo<A>, ::x::Bar<::y::Vec<A>>)])` is accepted and
stores the single slot `::y::Vec<A>` verbatim, nested generic included, with
an empty resolved-parameter list. -/
theorem c10_witness :
    ∃ t2, (TypeSubstitutes.new myRoot).extend
        [(srcFooA, AbsoluteTypePath.mk tgtBarNested)] = Except.ok t2 ∧
      t2.params (pathKey srcFooA) = some [CgTypePath.typ nestedVecA []] :=
  c10_template_slots (TypeSubstitutes.new myRoot) srcFooA
    (AbsoluteTypePath.mk tgtBarNested) (genSeg "Foo" [idPath "A"])
    (genSeg "Bar" [nestedVecA]) rfl rfl rfl rfl
    (fun a ha => by
      have h2 := List.mem_singleton.mp ha
      subst h2
      exact Or.inr rfl)

end Substitutes
